import Mathlib

/-!
Shallow embedding of the weather-app repository (location-input parser,
geocoding client, weather client, locations store, service layer) and
proofs of the frozen claims C1 to C10.

Modelling conventions:
- Python floats are modelled as exact rationals.  Decimal literals in the
  input are parsed exactly; range comparisons against 90 and 180 are exact.
- Strings are lists of characters; the character classes of the regular
  expressions are restricted to their ASCII members, the only ones the
  claims exercise.
- Outbound HTTP calls are modelled by an explicit upstream-response value
  given as an argument; JSON payloads are a small inductive type.
- A raised Python exception is an explicit error value; the exception
  class (ValueError, ConnectionError, RuntimeError) is tracked because the
  service-layer handlers dispatch on it.
-/

namespace WeatherApp

/-- The ASCII members of the regex class backslash-s, which both the code
pattern and the spec pattern use. -/
def isSpaceChar (c : Char) : Bool :=
  c = ' ' || c = '\t' || c = '\n' || c = '\x0d' || c = '\x0c' || c = '\x0b'

/-- Numeric value of a decimal digit character. -/
def digitVal (c : Char) : Nat := c.toNat - 48

/-- Value of a list of decimal digits, most significant first. -/
def natOfDigits (ds : List Char) : Nat :=
  ds.foldl (fun a c => a * 10 + digitVal c) 0

/-- Consume the optional sign of the regex fragment.  The code pattern
uses the class [-+] (allowPlus = true); the spec pattern allows only the
minus sign (allowPlus = false).  Returns (negated, rest). -/
def matchSign (allowPlus : Bool) (s : List Char) : Bool × List Char :=
  match s with
  | [] => (false, [])
  | c :: r =>
    if c = '-' then (true, r)
    else if c = '+' && allowPlus then (false, r)
    else (false, c :: r)

/-- Match the unsigned regex fragment digits+ (dot digits+)? at the head
of the string, greedily, returning the exact rational value and the rest
of the string.  Greedy matching is equivalent to the backtracking
semantics here because no character that can follow the fragment in the
full pattern is a digit. -/
def matchDigitsVal (s1 : List Char) : Option (ℚ × List Char) :=
  match s1.takeWhile Char.isDigit with
  | [] => none
  | ds =>
    match s1.dropWhile Char.isDigit with
    | '.' :: r2 =>
      match r2.takeWhile Char.isDigit with
      | [] => some ((natOfDigits ds : ℚ), s1.dropWhile Char.isDigit)
      | fs => some ((natOfDigits ds : ℚ)
                      + (natOfDigits fs : ℚ) / ((10 : ℚ) ^ fs.length),
                    r2.dropWhile Char.isDigit)
    | r1 => some ((natOfDigits ds : ℚ), r1)

/-- Match the signed number fragment of the pattern. -/
def matchNumber (allowPlus : Bool) (s : List Char) : Option (ℚ × List Char) :=
  match matchSign allowPlus s with
  | (neg, s1) =>
    match matchDigitsVal s1 with
    | none => none
    | some (v, rest) => some ((if neg then -v else v), rest)

/-- The anchored coordinate pattern: whitespace, number, whitespace,
comma, whitespace, number, whitespace, end of string.  With
allowPlus = true this is the pattern of re.match in parse_input
(api.py line 26 and streamlit_frontend.py line 40); with
allowPlus = false it is the pattern stated in the spec.  The dollar
anchor of Python also matches before one final newline, which is
subsumed here because the newline is in the whitespace class. -/
def coordMatchGen (allowPlus : Bool) (s : List Char) : Option (ℚ × ℚ) :=
  match matchNumber allowPlus (s.dropWhile isSpaceChar) with
  | none => none
  | some (lat, r1) =>
    match r1.dropWhile isSpaceChar with
    | ',' :: r3 =>
      match matchNumber allowPlus (r3.dropWhile isSpaceChar) with
      | none => none
      | some (lon, r5) =>
        if r5.all isSpaceChar then some (lat, lon) else none
    | _ => none

/-- The coordinate pattern as the code writes it. -/
def coordMatch : List Char → Option (ℚ × ℚ) := coordMatchGen true

/-- The coordinate pattern as the spec writes it (no plus sign). -/
def specCoordMatch : List Char → Option (ℚ × ℚ) := coordMatchGen false

/-- Errors raised by the geocode function (geocode.py), tagged by their
meaning; their Python exception classes are given by GeoErr.toExc. -/
inductive GeoErr where
  | configError
  | connectionError
  | malformedJson
  | notFound
  | missingLatLon
deriving DecidableEq, Repr

/-- The Python exception classes the service layer dispatches on. -/
inductive PyExc where
  | valueError
  | connectionError
  | runtimeError
  | sqlAlchemyExc
deriving DecidableEq, Repr

/-- Exception class of each geocode failure, per the raise statements of
geocode.py: RuntimeError for the missing contact value, ConnectionError
for transport failures, ValueError for everything else. -/
def GeoErr.toExc : GeoErr → PyExc
  | .configError => .runtimeError
  | .connectionError => .connectionError
  | .malformedJson => .valueError
  | .notFound => .valueError
  | .missingLatLon => .valueError

/-- A geocoding collaborator: given the address, either a coordinate pair
or a geocoding failure. -/
def Geocoder : Type := List Char → Except GeoErr (ℚ × ℚ)

/-- parse_input of streamlit_frontend.py (the UI-facing variant): on a
pattern match return the parsed pair, otherwise delegate the whole string
to the geocoder.  The second component counts geocoder calls. -/
def parse_input_ui (g : Geocoder) (s : List Char) :
    Except GeoErr (ℚ × ℚ) × Nat :=
  match coordMatch s with
  | some (lat, lon) => (.ok (lat, lon), 0)
  | none => (g s, 1)

/-- Failures of the service-layer parse_input: the out-of-range
ValueError it raises itself, or a propagated geocoding failure. -/
inductive ParseErr where
  | outOfRange (lat lon : ℚ)
  | geo (e : GeoErr)
deriving DecidableEq, Repr

/-- Exception class of a service-layer parse failure; the out-of-range
raise in api.py line 35 is a ValueError. -/
def ParseErr.toExc : ParseErr → PyExc
  | .outOfRange _ _ => .valueError
  | .geo e => e.toExc

/-- parse_input of weather/api.py (the service-layer variant): on a
pattern match, validate the ranges and either return the pair or raise;
otherwise delegate to the geocoder.  The second component counts
geocoder calls. -/
def parse_input (g : Geocoder) (s : List Char) :
    Except ParseErr (ℚ × ℚ) × Nat :=
  match coordMatch s with
  | some (lat, lon) =>
    if -90 ≤ lat ∧ lat ≤ 90 ∧ -180 ≤ lon ∧ lon ≤ 180 then
      (.ok (lat, lon), 0)
    else
      (.error (.outOfRange lat lon), 0)
  | none =>
    match g s with
    | .ok p => (.ok p, 1)
    | .error e => (.error (.geo e), 1)

/-! ### JSON values and upstream responses -/

/-- JSON values, as decoded by resp.json().  Numbers are exact rationals
in this model. -/
inductive Json where
  | null
  | bool (b : Bool)
  | num (q : ℚ)
  | str (s : String)
  | arr (xs : List Json)
  | obj (fields : List (String × Json))

/-- Outcome of one outbound HTTP call: a transport or HTTP-status failure
(requests.RequestException, including the 10-second timeout and
raise_for_status), a body that fails JSON decoding, or a decoded JSON
value. -/
inductive UpstreamResp where
  | transportError
  | badJson
  | ok (j : Json)

/-- Python dict .get and bracket lookup on the fields of a JSON object:
the value of the first binding of the key, if any. -/
def dictGet (fields : List (String × Json)) (k : String) : Option Json :=
  (fields.find? (fun f => f.1 = k)).map (fun f => f.2)

/-- Python bracket lookup location[k] on an arbitrary JSON value, as a
partial function: none models the raised KeyError (key absent in a dict)
or TypeError (value not a dict), which the caller catches together. -/
def pyIndex (j : Json) (k : String) : Option Json :=
  match j with
  | .obj fields => dictGet fields k
  | _ => none

/-- Python float(x) applied to a JSON value, as a partial function: none
models a raised TypeError or ValueError.  Numbers convert exactly,
booleans convert to 1 and 0 (Python bool is numeric), and strings
convert when they are an optionally signed decimal literal with optional
surrounding whitespace; every other value fails. -/
def floatOfJson (j : Json) : Option ℚ :=
  match j with
  | .num q => some q
  | .bool b => some (if b then 1 else 0)
  | .str s =>
    match matchNumber true (s.toList.dropWhile isSpaceChar) with
    | some (v, rest) => if rest.all isSpaceChar then some v else none
    | none => none
  | _ => none

/-! ### Geocoding client (weather/geocode.py) -/

/-- geocode of weather/geocode.py.  The GEOCODER_EMAIL environment value
is none when unset; the upstream call outcome is given explicitly.
Failure order follows the source: missing or empty contact value first,
then transport failure, then JSON decoding, then the empty-or-non-list
check, then float conversion of the lat and lon fields of the first
result. -/
def geocode (email : Option String) (resp : UpstreamResp) :
    Except GeoErr (ℚ × ℚ) :=
  match email with
  | none => .error .configError
  | some e =>
    if e = "" then .error .configError
    else
      match resp with
      | .transportError => .error .connectionError
      | .badJson => .error .malformedJson
      | .ok data =>
        match data with
        | .arr (location :: _) =>
          match (pyIndex location "lat").bind floatOfJson,
                (pyIndex location "lon").bind floatOfJson with
          | some lat, some lon => .ok (lat, lon)
          | _, _ => .error .missingLatLon
        | _ => .error .notFound

/-! ### Weather client (weather/weather_app.py) -/

/-- Failures of fetch_current, tagged by meaning. -/
inductive CurErr where
  | connection
  | invalidJson
  | missingCurrentWeather
deriving DecidableEq, Repr

/-- Exception class of each fetch_current failure, per the raise
statements of weather_app.py. -/
def CurErr.toExc : CurErr → PyExc
  | .connection => .connectionError
  | .invalidJson => .valueError
  | .missingCurrentWeather => .valueError

/-- fetch_current of weather/weather_app.py: transport failure raises
ConnectionError, bad JSON raises ValueError, a payload that is not a
dict or lacks the current_weather key raises ValueError, and otherwise
the current_weather value is returned unmodified. -/
def fetch_current (resp : UpstreamResp) : Except CurErr Json :=
  match resp with
  | .transportError => .error .connection
  | .badJson => .error .invalidJson
  | .ok data =>
    match data with
    | .obj fields =>
      match dictGet fields "current_weather" with
      | some v => .ok v
      | none => .error .missingCurrentWeather
    | _ => .error .missingCurrentWeather

/-- Failures of fetch_5day, tagged by meaning; all but connection are
raised as ValueError. -/
inductive FcErr where
  | connection
  | invalidJson
  | missingDaily
  | unequalLengths
deriving DecidableEq, Repr

/-- Exception class of each fetch_5day failure, per the raise statements
of weather_app.py. -/
def FcErr.toExc : FcErr → PyExc
  | .connection => .connectionError
  | _ => .valueError

/-- One record of the forecast list built by fetch_5day. -/
structure DayRec where
  date : Json
  temp_max : Json
  temp_min : Json
  weathercode : Json

/-- Python zip over four lists followed by the record-building loop of
fetch_5day: truncates at the shortest list (the lengths are checked equal
before the call in fetch_5day). -/
def zip4 : List Json → List Json → List Json → List Json → List DayRec
  | a :: as, b :: bs, c :: cs, d :: ds =>
    { date := a, temp_max := b, temp_min := c, weathercode := d }
      :: zip4 as bs cs ds
  | _, _, _, _ => []

/-- daily.get(key, []) of fetch_5day, restricted to values on which the
subsequent len and zip are defined: an absent key defaults to the empty
list, a JSON array is taken as is, and any other value is outside the
model (none), standing for a Python-level type error the function does
not handle. -/
def getDailyArr (dfields : List (String × Json)) (k : String) :
    Option (List Json) :=
  match dictGet dfields k with
  | none => some []
  | some (.arr xs) => some xs
  | some _ => none

/-- fetch_5day of weather/weather_app.py.  The outer none models an
unhandled Python-level error (payload not a dict, so payload.get raises
AttributeError, or a daily member that is neither absent nor an array).
Within the model: transport failure raises ConnectionError; bad JSON,
a missing or non-dict daily member, and unequal array lengths raise
ValueError; otherwise the four arrays are zipped positionally into one
record per index. -/
def fetch_5day (resp : UpstreamResp) :
    Option (Except FcErr (List DayRec)) :=
  match resp with
  | .transportError => some (.error .connection)
  | .badJson => some (.error .invalidJson)
  | .ok payload =>
    match payload with
    | .obj pfields =>
      match dictGet pfields "daily" with
      | some (.obj dfields) =>
        match getDailyArr dfields "time",
              getDailyArr dfields "temperature_2m_max",
              getDailyArr dfields "temperature_2m_min",
              getDailyArr dfields "weathercode" with
        | some times, some maxs, some mins, some codes =>
          if times.length = maxs.length ∧ maxs.length = mins.length
              ∧ mins.length = codes.length then
            some (.ok (zip4 times maxs mins codes))
          else
            some (.error .unequalLengths)
        | _, _, _, _ => none
      | _ => some (.error .missingDaily)
    | _ => none

/-! ### Reverse geocoding (streamlit_frontend.py) -/

/-- Left-pad a decimal string with zeros to the given width. -/
def padZeros (s : String) (n : Nat) : String :=
  String.mk (List.replicate (n - s.length) '0') ++ s

/-- The Python format specifier .4f applied to an exact rational: the
value rounded to four decimal places and rendered with exactly four
fraction digits.  Rounding of exact halves and of negative values that
round to zero may differ from CPython on binary doubles; no claim
depends on those corners. -/
def format4 (q : ℚ) : String :=
  (if round (q * 10000) < 0 then "-" else "")
    ++ toString ((round (q * 10000)).natAbs / 10000)
    ++ "."
    ++ padZeros (toString ((round (q * 10000)).natAbs % 10000)) 4

/-- The fallback string of reverse_geocode, lat and lon each formatted
to four decimal places and joined by a comma and a space. -/
def fallbackStr (lat lon : ℚ) : String :=
  format4 lat ++ ", " ++ format4 lon

/-- reverse_geocode of streamlit_frontend.py.  The whole body runs under
a bare except that returns the fallback string, so every failure
(transport, HTTP status, JSON decoding, a non-dict body on which .get
raises) yields the fallback; a dict body without the display_name key
yields the fallback through the .get default; otherwise the
display_name value is returned as is. -/
def reverse_geocode (lat lon : ℚ) (resp : UpstreamResp) : Json :=
  match resp with
  | .transportError => .str (fallbackStr lat lon)
  | .badJson => .str (fallbackStr lat lon)
  | .ok j =>
    match j with
    | .obj fields =>
      match dictGet fields "display_name" with
      | some v => v
      | none => .str (fallbackStr lat lon)
    | _ => .str (fallbackStr lat lon)

/-! ### Locations store (weather/crud.py, models.py, schemas.py)

The relational table is a list of rows; timestamps are abstract integer
instants.  A session holds the committed table plus the staged view of
the pending transaction; commit takes an explicit success flag standing
for the possible SQLAlchemyError, and rollback restores the committed
state.  Each request works on a fresh session (database.get_db yields
one session per request). -/

/-- Request body for creating a location (schemas.LocationCreate): the
three fields are required and carry no range constraints. -/
structure LocationCreate where
  name : String
  latitude : ℚ
  longitude : ℚ
deriving DecidableEq, Repr

/-- Request body for updating a location (schemas.LocationUpdate): every
field optional; none models a field absent from the request, which
dict(exclude_unset = true) drops. -/
structure LocationUpdate where
  name : Option String
  latitude : Option ℚ
  longitude : Option ℚ
deriving DecidableEq, Repr

/-- One row of the locations table (models.Location). -/
structure Row where
  id : ℤ
  name : String
  latitude : ℚ
  longitude : ℚ
  created_at : ℤ
  updated_at : ℤ
deriving DecidableEq, Repr

/-- The committed locations table. -/
abbrev Store := List Row

/-- The persistence-layer failure (sqlalchemy.exc.SQLAlchemyError). -/
inductive DbErr where
  | sqlAlchemyError
deriving DecidableEq, Repr

/-- An ORM session: the committed table and the pending staged view. -/
structure DbSession where
  committed : Store
  pending : Store
deriving DecidableEq, Repr

/-- A fresh request-scoped session over a committed table. -/
def DbSession.fresh (db : Store) : DbSession :=
  { committed := db, pending := db }

/-- db.add: stage an insert. -/
def DbSession.addRow (s : DbSession) (r : Row) : DbSession :=
  { s with pending := s.pending ++ [r] }

/-- Staging of attribute assignments on a loaded row: the pending view
holds the new row in place of the one with the same id. -/
def DbSession.setRow (s : DbSession) (r : Row) : DbSession :=
  { s with pending := s.pending.map (fun x => if x.id = r.id then r else x) }

/-- db.delete: stage removal of the row with the given id. -/
def DbSession.removeRow (s : DbSession) (i : ℤ) : DbSession :=
  { s with pending := s.pending.filter (fun x => ¬ x.id = i) }

/-- db.commit with an explicit success flag: on success the pending view
becomes committed; on failure nothing is persisted and SQLAlchemyError
is raised. -/
def DbSession.commit (s : DbSession) (ok : Bool) : Except DbErr DbSession :=
  if ok then .ok { committed := s.pending, pending := s.pending }
  else .error .sqlAlchemyError

/-- db.rollback: discard the pending view. -/
def DbSession.rollback (s : DbSession) : DbSession :=
  { committed := s.committed, pending := s.committed }

/-- get_location of crud.py: first row with the given id, none when
absent (the not-found sentinel). -/
def get_location (db : Store) (loc_id : ℤ) : Option Row :=
  db.find? (fun r => r.id = loc_id)

/-- create_location of crud.py: build the row (server-assigned id
nextId; created_at and updated_at both set by func.now() in the single
insert, hence both equal now), stage it, commit; on commit failure roll
back and re-raise.  Returns the final session and the result. -/
def create_location (s : DbSession) (commitOk : Bool) (now nextId : ℤ)
    (loc : LocationCreate) : DbSession × Except DbErr Row :=
  let row : Row :=
    { id := nextId, name := loc.name, latitude := loc.latitude,
      longitude := loc.longitude, created_at := now, updated_at := now }
  match (s.addRow row).commit commitOk with
  | .ok s2 => (s2, .ok row)
  | .error e => ((s.addRow row).rollback, .error e)

/-- Overwrite exactly the fields present in the update request
(loc.dict(exclude_unset = true) followed by setattr per field). -/
def applyUpdate (r : Row) (u : LocationUpdate) : Row :=
  { r with
    name := u.name.getD r.name,
    latitude := u.latitude.getD r.latitude,
    longitude := u.longitude.getD r.longitude }

/-- Whether the update request carries at least one field. -/
def LocationUpdate.isSet (u : LocationUpdate) : Bool :=
  u.name.isSome || u.latitude.isSome || u.longitude.isSome

/-- update_location of crud.py: none result for an absent id (not-found
sentinel, no commit attempted); otherwise overwrite the supplied fields,
with the onupdate clause of models.Location refreshing updated_at in the
update statement the commit flushes (no statement, hence no refresh,
when the request carries no field); on commit failure roll back and
re-raise. -/
def update_location (s : DbSession) (commitOk : Bool) (now loc_id : ℤ)
    (u : LocationUpdate) : DbSession × Except DbErr (Option Row) :=
  match get_location s.committed loc_id with
  | none => (s, .ok none)
  | some r =>
    let r2 := if u.isSet then { applyUpdate r u with updated_at := now }
              else r
    match (s.setRow r2).commit commitOk with
    | .ok s2 => (s2, .ok (some r2))
    | .error e => ((s.setRow r2).rollback, .error e)

/-- delete_location of crud.py: none result for an absent id (not-found
sentinel, no commit attempted); otherwise stage the removal and commit;
on commit failure roll back and re-raise. -/
def delete_location (s : DbSession) (commitOk : Bool) (loc_id : ℤ) :
    DbSession × Except DbErr (Option Row) :=
  match get_location s.committed loc_id with
  | none => (s, .ok none)
  | some r =>
    match (s.removeRow loc_id).commit commitOk with
    | .ok s2 => (s2, .ok (some r))
    | .error e => ((s.removeRow loc_id).rollback, .error e)

/-! ### Service layer (weather/api.py endpoints) -/

/-- Outcome of one HTTP request: a status code produced by the endpoint,
or an exception no handler in the endpoint catches (surfaced by the
framework as an internal server error). -/
inductive HttpOut where
  | status (code : Nat)
  | unhandled (e : PyExc)
deriving DecidableEq, Repr

/-- The current endpoint of api.py (GET /weather).  The first handler
catches only ValueError from parse_input and maps it to 400; the second
catches only ConnectionError from fetch_current and maps it to 502;
every other exception escapes.  The geocoder passed to parse_input is
the geocode client under the given configuration and upstream
response. -/
def current (email : Option String) (geoResp wResp : UpstreamResp)
    (loc : List Char) : HttpOut :=
  match (parse_input (fun _ => geocode email geoResp) loc).1 with
  | .error pe =>
    match pe.toExc with
    | .valueError => .status 400
    | e => .unhandled e
  | .ok _ =>
    match fetch_current wResp with
    | .error fe =>
      match fe.toExc with
      | .connectionError => .status 502
      | e => .unhandled e
    | .ok _ => .status 200

/-- The forecast endpoint of api.py (GET /forecast); same handler
structure as the current endpoint, around fetch_5day.  The outer none is
inherited from the fetch_5day model. -/
def forecast (email : Option String) (geoResp wResp : UpstreamResp)
    (loc : List Char) : Option HttpOut :=
  match (parse_input (fun _ => geocode email geoResp) loc).1 with
  | .error pe =>
    match pe.toExc with
    | .valueError => some (.status 400)
    | e => some (.unhandled e)
  | .ok _ =>
    match fetch_5day wResp with
    | none => none
    | some (.error fe) =>
      match fe.toExc with
      | .connectionError => some (.status 502)
      | e => some (.unhandled e)
    | some (.ok _) => some (.status 200)

/-- The read_location endpoint of api.py (GET /locations/id): 404 when
the store lookup returns the not-found sentinel, 200 otherwise. -/
def read_location (db : Store) (loc_id : ℤ) : HttpOut :=
  match get_location db loc_id with
  | none => .status 404
  | some _ => .status 200

/-- The create_loc endpoint of api.py (POST /locations/): 201 on
success; a persistence failure re-raised by crud.create_location is not
caught.  Returns the outcome and the resulting committed table. -/
def create_loc (db : Store) (commitOk : Bool) (now nextId : ℤ)
    (loc : LocationCreate) : HttpOut × Store :=
  match create_location (DbSession.fresh db) commitOk now nextId loc with
  | (s2, .ok _) => (.status 201, s2.committed)
  | (s2, .error _) => (.unhandled .sqlAlchemyExc, s2.committed)

/-- A constant geocoding collaborator used to instantiate witnesses. -/
def constGeocoder : Geocoder := fun _ => .ok (0, 0)

/-- The record fetch_5day builds from the four daily arrays at one
position: present exactly when all four arrays have an entry there.
This is the positional description the claims compare zip4 against. -/
def dayRecAt (times maxs mins codes : List Json) (i : Nat) :
    Option DayRec :=
  (times[i]?).bind fun a => (maxs[i]?).bind fun b =>
    (mins[i]?).bind fun c => (codes[i]?).bind fun d =>
      some { date := a, temp_max := b, temp_min := c, weathercode := d }

/-- A well-formed three-day payload: all four arrays have length 3. -/
def threeDayPayload : Json :=
  .obj [("daily", .obj
    [("time", .arr [.str "2025-01-01", .str "2025-01-02", .str "2025-01-03"]),
     ("temperature_2m_max", .arr [.num 10, .num 11, .num 12]),
     ("temperature_2m_min", .arr [.num 1, .num 2, .num 3]),
     ("weathercode", .arr [.num 61, .num 63, .num 65])])]

/-- The records fetch_5day builds from threeDayPayload. -/
def threeDayRecs : List DayRec :=
  [{ date := .str "2025-01-01", temp_max := .num 10, temp_min := .num 1,
     weathercode := .num 61 },
   { date := .str "2025-01-02", temp_max := .num 11, temp_min := .num 2,
     weathercode := .num 63 },
   { date := .str "2025-01-03", temp_max := .num 12, temp_min := .num 3,
     weathercode := .num 65 }]

/-! ### Helper lemmas -/

theorem matchSign_false_cases (s : List Char) :
    matchSign false s = matchSign true s ∨
    (∃ t, s = '+' :: t ∧ matchSign false s = (false, s)) := by
  cases s with
  | nil => left; rfl
  | cons c t =>
    by_cases hc : c = '-'
    · left; simp [matchSign, hc]
    · by_cases hp : c = '+'
      · right; exact ⟨t, by rw [hp], by simp [matchSign, hc, hp]⟩
      · left; simp [matchSign, hc, hp]

theorem matchNumber_mono (s : List Char) (r : ℚ × List Char)
    (h : matchNumber false s = some r) : matchNumber true s = some r := by
  rcases matchSign_false_cases s with he | ⟨t, ht, hf⟩
  · unfold matchNumber at h ⊢
    rw [← he]
    exact h
  · exfalso
    unfold matchNumber at h
    rw [hf, ht] at h
    simp [matchDigitsVal, List.takeWhile_cons] at h

theorem coordMatchGen_mono (s : List Char) (p : ℚ × ℚ)
    (h : coordMatchGen false s = some p) : coordMatchGen true s = some p := by
  unfold coordMatchGen at h ⊢
  split at h
  · exact absurd h (by simp)
  next lat r1 hm1 =>
    simp only [matchNumber_mono _ _ hm1]
    split at h
    next r3 heq =>
      split at h
      · exact absurd h (by simp)
      next lon r5 hm3 =>
        simp only [matchNumber_mono _ _ hm3]
        exact h
    next => exact h

/-! ### Claims C1 to C3: the location-input parser -/

/-- C1 (amended): for every input string matching the spec coordinate
pattern, neither parse_input variant calls the geocoding collaborator;
the UI-facing variant returns the two parsed numbers as (lat, lon)
unconditionally, while the service-layer variant returns them when they
lie within range and fails with the out-of-range ValueError
otherwise. -/
theorem C1_coordinate_literal_no_geocoding (g : Geocoder) (s : List Char)
    (lat lon : ℚ) (h : specCoordMatch s = some (lat, lon)) :
    parse_input_ui g s = (.ok (lat, lon), 0) ∧
    (parse_input g s).2 = 0 ∧
    ((-90 ≤ lat ∧ lat ≤ 90 ∧ -180 ≤ lon ∧ lon ≤ 180) →
      parse_input g s = (.ok (lat, lon), 0)) ∧
    (¬(-90 ≤ lat ∧ lat ≤ 90 ∧ -180 ≤ lon ∧ lon ≤ 180) →
      parse_input g s = (.error (.outOfRange lat lon), 0)) := by
  have hc : coordMatch s = some (lat, lon) := coordMatchGen_mono s _ h
  refine ⟨?_, ?_, fun hin => ?_, fun hout => ?_⟩
  · unfold parse_input_ui
    simp only [hc]
  · unfold parse_input
    simp only [hc]
    split <;> rfl
  · unfold parse_input
    simp only [hc, if_pos hin]
  · unfold parse_input
    simp only [hc, if_neg hout]

/-- C1 witness. -/
theorem C1_coordinate_literal_no_geocoding_witness :
    specCoordMatch (String.toList "45, -120") = some (45, -120) ∧
    parse_input_ui constGeocoder (String.toList "45, -120") =
      (.ok (45, -120), 0) := by
  have h : specCoordMatch (String.toList "45, -120") = some (45, -120) := by
    rfl
  exact ⟨h,
    (C1_coordinate_literal_no_geocoding constGeocoder _ _ _ h).1⟩

/-- C1 counterexample: the input 91,0 matches the spec coordinate
pattern, yet the service-layer parse_input raises the out-of-range
ValueError instead of returning the pair (91, 0). -/
theorem C1_counterexample :
    specCoordMatch (String.toList "91,0") = some (91, 0) ∧
    parse_input constGeocoder (String.toList "91,0") =
      (.error (.outOfRange 91 0), 0) := by
  constructor
  · rfl
  · rfl

/-- C2: for every non-empty string the code pattern does not match, both
parse_input variants call the geocoding collaborator exactly once on the
entire string; the UI variant returns exactly the collaborator outcome,
and the service variant returns the pair whenever the collaborator
reports one. -/
theorem C2_nonmatching_delegates_once (g : Geocoder) (s : List Char)
    (_hne : s ≠ []) (hm : coordMatch s = none) :
    parse_input_ui g s = (g s, 1) ∧
    (parse_input g s).2 = 1 ∧
    (∀ lat lon : ℚ, g s = .ok (lat, lon) →
      parse_input g s = (.ok (lat, lon), 1)) := by
  refine ⟨?_, ?_, fun lat lon hg => ?_⟩
  · unfold parse_input_ui
    simp only [hm]
  · unfold parse_input
    simp only [hm]
    split <;> rfl
  · unfold parse_input
    simp only [hm, hg]

/-- C2 witness: the spec example address. -/
theorem C2_nonmatching_delegates_once_witness :
    coordMatch (String.toList "Dallas, TX") = none ∧
    parse_input_ui constGeocoder (String.toList "Dallas, TX") =
      (constGeocoder (String.toList "Dallas, TX"), 1) ∧
    parse_input constGeocoder (String.toList "Dallas, TX") =
      (.ok (0, 0), 1) := by
  have h1 : String.toList "Dallas, TX" ≠ [] := by decide
  have h2 : coordMatch (String.toList "Dallas, TX") = none := by decide
  obtain ⟨a, _, c⟩ := C2_nonmatching_delegates_once constGeocoder _ h1 h2
  exact ⟨h2, a, c 0 0 rfl⟩

/-- C3: every input parsing as a coordinate literal whose latitude
exceeds 90 in absolute value or whose longitude exceeds 180 in absolute
value makes the service-layer parse_input fail with the out-of-range
failure, which is raised as ValueError, the invalid-input class; the
geocoder is not called. -/
theorem C3_out_of_range_rejected (g : Geocoder) (s : List Char)
    (lat lon : ℚ) (hm : coordMatch s = some (lat, lon))
    (hout : 90 < |lat| ∨ 180 < |lon|) :
    parse_input g s = (.error (.outOfRange lat lon), 0) ∧
    (ParseErr.outOfRange lat lon).toExc = .valueError := by
  have hnotin : ¬(-90 ≤ lat ∧ lat ≤ 90 ∧ -180 ≤ lon ∧ lon ≤ 180) := by
    rintro ⟨h1, h2, h3, h4⟩
    rcases hout with h | h
    · exact absurd (abs_le.mpr ⟨h1, h2⟩) (not_le.mpr h)
    · exact absurd (abs_le.mpr ⟨h3, h4⟩) (not_le.mpr h)
  constructor
  · unfold parse_input
    simp only [hm, if_neg hnotin]
  · rfl

/-- C3 witness. -/
theorem C3_out_of_range_rejected_witness :
    coordMatch (String.toList "200,0") = some (200, 0) ∧
    parse_input constGeocoder (String.toList "200,0") =
      (.error (.outOfRange 200 0), 0) := by
  have h1 : coordMatch (String.toList "200,0") = some (200, 0) := by rfl
  have h2 : (90 : ℚ) < |(200 : ℚ)| ∨ (180 : ℚ) < |(0 : ℚ)| := by
    left
    rw [abs_of_nonneg (by norm_num : (0 : ℚ) ≤ 200)]
    norm_num
  exact ⟨h1, (C3_out_of_range_rejected constGeocoder _ _ _ h1 h2).1⟩

/-! ### Claim C4: fetch_5day -/

theorem zip4_length (as : List Json) :
    ∀ bs cs ds : List Json, as.length = bs.length → bs.length = cs.length →
      cs.length = ds.length → (zip4 as bs cs ds).length = as.length := by
  induction as with
  | nil => intro bs cs ds _ _ _; rfl
  | cons a as ih =>
    intro bs cs ds h1 h2 h3
    cases bs with
    | nil => simp at h1
    | cons b bs =>
      cases cs with
      | nil => simp at h2
      | cons c cs =>
        cases ds with
        | nil => simp at h3
        | cons d ds =>
          simp only [zip4, List.length_cons]
          rw [ih bs cs ds (by simpa using h1) (by simpa using h2)
            (by simpa using h3)]

theorem zip4_getElem? (as : List Json) :
    ∀ (bs cs ds : List Json) (i : Nat),
      (zip4 as bs cs ds)[i]? = dayRecAt as bs cs ds i := by
  induction as with
  | nil => intro bs cs ds i; simp [zip4, dayRecAt]
  | cons a as ih =>
    intro bs cs ds i
    cases bs with
    | nil =>
      cases i with
      | zero => simp [zip4, dayRecAt]
      | succ n =>
        simp only [zip4, dayRecAt, List.getElem?_nil, List.getElem?_cons_succ]
        cases h : as[n]? <;> simp
    | cons b bs =>
      cases cs with
      | nil =>
        cases i with
        | zero => simp [zip4, dayRecAt]
        | succ n =>
          simp only [zip4, dayRecAt, List.getElem?_nil,
            List.getElem?_cons_succ]
          cases h : as[n]? <;> cases h2 : bs[n]? <;> simp
      | cons c cs =>
        cases ds with
        | nil =>
          cases i with
          | zero => simp [zip4, dayRecAt]
          | succ n =>
            simp only [zip4, dayRecAt, List.getElem?_nil,
              List.getElem?_cons_succ]
            cases h : as[n]? <;> cases h2 : bs[n]? <;> cases h3 : cs[n]?
              <;> simp
        | cons d ds =>
          cases i with
          | zero => simp [zip4, dayRecAt]
          | succ n =>
            simpa [zip4, dayRecAt] using ih bs cs ds n

/-- C4 (amended): with the four daily arrays extracted from the payload,
fetch_5day fails with the unequal-lengths ValueError whenever the four
lengths are not all equal; when they are all equal it succeeds and
returns one day-record per array position, in order, each built from the
four arrays at that position — the record count equals the common array
length, which is 5 exactly when the upstream returns the 5 requested
entries, but is not checked against 5 by the code. -/
theorem C4_fetch5day_zip (pfields dfields : List (String × Json))
    (times maxs mins codes : List Json)
    (hp : dictGet pfields "daily" = some (.obj dfields))
    (ht : getDailyArr dfields "time" = some times)
    (hx : getDailyArr dfields "temperature_2m_max" = some maxs)
    (hn : getDailyArr dfields "temperature_2m_min" = some mins)
    (hw : getDailyArr dfields "weathercode" = some codes) :
    ((times.length = maxs.length ∧ maxs.length = mins.length ∧
        mins.length = codes.length) →
      fetch_5day (.ok (.obj pfields)) =
          some (.ok (zip4 times maxs mins codes)) ∧
        (zip4 times maxs mins codes).length = times.length ∧
        ∀ i : Nat, (zip4 times maxs mins codes)[i]? =
          dayRecAt times maxs mins codes i) ∧
    (¬(times.length = maxs.length ∧ maxs.length = mins.length ∧
        mins.length = codes.length) →
      fetch_5day (.ok (.obj pfields)) = some (.error .unequalLengths)) := by
  constructor
  · rintro ⟨h1, h2, h3⟩
    refine ⟨?_, zip4_length times maxs mins codes h1 h2 h3,
      fun i => zip4_getElem? times maxs mins codes i⟩
    unfold fetch_5day
    simp only [hp, ht, hx, hn, hw]
    rw [if_pos ⟨h1, h2, h3⟩]
  · intro hneq
    unfold fetch_5day
    simp only [hp, ht, hx, hn, hw]
    rw [if_neg hneq]

/-- C4 witness: the three-day payload, all arrays of equal length. -/
theorem C4_fetch5day_zip_witness :
    fetch_5day (.ok threeDayPayload) = some (.ok threeDayRecs) ∧
    threeDayRecs.length = 3 := by
  have h := (C4_fetch5day_zip
    [("daily", .obj
      [("time", .arr [.str "2025-01-01", .str "2025-01-02",
                      .str "2025-01-03"]),
       ("temperature_2m_max", .arr [.num 10, .num 11, .num 12]),
       ("temperature_2m_min", .arr [.num 1, .num 2, .num 3]),
       ("weathercode", .arr [.num 61, .num 63, .num 65])])]
    [("time", .arr [.str "2025-01-01", .str "2025-01-02",
                    .str "2025-01-03"]),
     ("temperature_2m_max", .arr [.num 10, .num 11, .num 12]),
     ("temperature_2m_min", .arr [.num 1, .num 2, .num 3]),
     ("weathercode", .arr [.num 61, .num 63, .num 65])]
    [.str "2025-01-01", .str "2025-01-02", .str "2025-01-03"]
    [.num 10, .num 11, .num 12]
    [.num 1, .num 2, .num 3]
    [.num 61, .num 63, .num 65]
    rfl rfl rfl rfl rfl).1 ⟨rfl, rfl, rfl⟩
  exact ⟨h.1, rfl⟩

/-- C4 counterexample: a well-formed payload whose four arrays all have
length 3 succeeds with 3 records, not 5 — the claim that every
well-formed payload yields exactly 5 day-records fails. -/
theorem C4_counterexample :
    fetch_5day (.ok threeDayPayload) = some (.ok threeDayRecs) ∧
    threeDayRecs.length ≠ 5 := by
  constructor
  · rfl
  · decide

/-! ### Claim C5: service-layer status mapping -/

/-- C5 (amended): the actual outcome-to-status mapping of the service
layer.  Any ValueError from the parse step — out-of-range coordinates,
but also geocoding not-found and geocoding malformed-response failures,
which geocode raises as ValueError — is caught by the invalid-input
handler and surfaced as 400; any other parse-step exception (geocoding
connectivity or configuration failure) escapes unhandled.  After a
successful parse, a weather-client ConnectionError is surfaced as 502,
while a weather-client ValueError (malformed response) escapes
unhandled.  A store lookup miss is 404, a hit 200, and a successful
create 201. -/
theorem C5_status_mapping (email : Option String) (gr wr : UpstreamResp)
    (loc : List Char) (db : Store) (cnow cid : ℤ) (lc : LocationCreate) :
    (∀ pe, (parse_input (fun _ => geocode email gr) loc).1 = .error pe →
      (pe.toExc = .valueError → current email gr wr loc = .status 400) ∧
      (pe.toExc ≠ .valueError →
        current email gr wr loc = .unhandled pe.toExc)) ∧
    (∀ p, (parse_input (fun _ => geocode email gr) loc).1 = .ok p →
      (fetch_current wr = .error .connection →
        current email gr wr loc = .status 502) ∧
      (∀ fe, fetch_current wr = .error fe → fe ≠ .connection →
        current email gr wr loc = .unhandled .valueError) ∧
      (∀ j, fetch_current wr = .ok j →
        current email gr wr loc = .status 200)) ∧
    ((get_location db cid = none → read_location db cid = .status 404) ∧
     (∀ r, get_location db cid = some r →
        read_location db cid = .status 200)) ∧
    (create_loc db true cnow cid lc).1 = .status 201 := by
  refine ⟨fun pe hpe => ⟨fun hv => ?_, fun hnv => ?_⟩,
    fun p hp => ⟨fun hc => ?_, fun fe hfe hne => ?_, fun j hj => ?_⟩,
    ⟨fun hn => ?_, fun r hr => ?_⟩, ?_⟩
  · unfold current
    simp only [hpe, hv]
  · unfold current
    cases hx : pe.toExc with
    | valueError => exact absurd hx hnv
    | connectionError => simp only [hpe, hx]
    | runtimeError => simp only [hpe, hx]
    | sqlAlchemyExc => simp only [hpe, hx]
  · unfold current
    simp only [hp, hc]
    rfl
  · unfold current
    cases fe with
    | connection => exact absurd rfl hne
    | invalidJson => simp only [hp, hfe]; rfl
    | missingCurrentWeather => simp only [hp, hfe]; rfl
  · unfold current
    simp only [hp, hj]
  · unfold read_location
    simp only [hn]
  · unfold read_location
    simp only [hr]
  · rfl

/-- C5 witness: a reachable weather-client connectivity failure is
mapped to 502 after a successful geocoded parse. -/
theorem C5_status_mapping_witness :
    current (some "dev@example.com")
      (.ok (.arr [.obj [("lat", .num 10), ("lon", .num 20)]]))
      .transportError (String.toList "Dallas") = .status 502 := by
  have hp : (parse_input
      (fun _ => geocode (some "dev@example.com")
        (.ok (.arr [.obj [("lat", .num 10), ("lon", .num 20)]])))
      (String.toList "Dallas")).1 = .ok (10, 20) := rfl
  exact ((C5_status_mapping (some "dev@example.com")
    (.ok (.arr [.obj [("lat", .num 10), ("lon", .num 20)]]))
    .transportError (String.toList "Dallas") [] 0 0
    { name := "", latitude := 0, longitude := 0 }).2.1
    (10, 20) hp).1 rfl

/-- C5 counterexample: a geocoding not-found failure during the weather
endpoint is surfaced as 400, not as the 404 the claim requires (geocode
raises it as ValueError, which the invalid-input handler catches). -/
theorem C5_counterexample :
    geocode (some "dev@example.com") (.ok (.arr [])) = .error .notFound ∧
    current (some "dev@example.com") (.ok (.arr []))
      (.ok (.obj [("current_weather", .num 0)]))
      (String.toList "Nowhereville") = .status 400 ∧
    HttpOut.status 400 ≠ HttpOut.status 404 := by
  refine ⟨rfl, rfl, by decide⟩

/-! ### Claim C6: coordinate bounds -/

/-- C6 (amended): the [-90, 90] x [-180, 180] bounds are enforced only
by the service-layer parse_input on coordinate-literal input; the
locations store performs no range validation at all: create accepts any
latitude and longitude and persists them unchanged, and update accepts
and stores any supplied values — out-of-range values are neither
rejected nor clamped there. -/
theorem C6_store_accepts_any_coordinates (db : Store) (now nid loc_id : ℤ)
    (lc : LocationCreate) (r : Row)
    (hr : get_location db loc_id = some r) :
    (create_location (DbSession.fresh db) true now nid lc).2 =
      .ok { id := nid, name := lc.name, latitude := lc.latitude,
            longitude := lc.longitude, created_at := now,
            updated_at := now } ∧
    (∀ nm la lo, (update_location (DbSession.fresh db) true now loc_id
        { name := some nm, latitude := some la, longitude := some lo }).2 =
      .ok (some { id := r.id, name := nm, latitude := la, longitude := lo,
                  created_at := r.created_at, updated_at := now })) := by
  constructor
  · rfl
  · intro nm la lo
    have hc : get_location (DbSession.fresh db).committed loc_id = some r := hr
    unfold update_location
    simp only [hc]
    rfl

/-- C6 witness: an out-of-range latitude of 999 is accepted and stored
by both create and update. -/
theorem C6_store_accepts_any_coordinates_witness :
    (create_location (DbSession.fresh []) true 0 1
      { name := "X", latitude := 999, longitude := 0 }).2 =
      .ok { id := 1, name := "X", latitude := 999, longitude := 0,
            created_at := 0, updated_at := 0 } ∧
    (update_location (DbSession.fresh
        [{ id := 1, name := "X", latitude := 0, longitude := 0,
           created_at := 0, updated_at := 0 }]) true 7 1
      { name := some "X", latitude := some 999, longitude := some 0 }).2 =
      .ok (some { id := 1, name := "X", latitude := 999, longitude := 0,
                  created_at := 0, updated_at := 7 }) := by
  have h := C6_store_accepts_any_coordinates
    [{ id := 1, name := "X", latitude := 0, longitude := 0,
       created_at := 0, updated_at := 0 }] 7 1 1
    { name := "X", latitude := 999, longitude := 0 }
    { id := 1, name := "X", latitude := 0, longitude := 0,
      created_at := 0, updated_at := 0 } rfl
  exact ⟨rfl, h.2 "X" 999 0⟩

/-- C6 counterexample: creating a saved location with latitude 999
succeeds and persists the out-of-range value — it is not rejected. -/
theorem C6_counterexample :
    (create_location (DbSession.fresh []) true 0 1
      { name := "Pole", latitude := 999, longitude := 0 }).1.committed =
      [{ id := 1, name := "Pole", latitude := 999, longitude := 0,
         created_at := 0, updated_at := 0 }] ∧
    (create_loc [] true 0 1
      { name := "Pole", latitude := 999, longitude := 0 }).1 =
      .status 201 ∧
    ¬ ((999 : ℚ) ≤ 90) := by
  refine ⟨rfl, rfl, by norm_num⟩

/-! ### Claim C7: forward geocoding -/

/-- C7: geocode fails with the configuration error when the identifying
contact value is unset (or set empty), with the connectivity error on
transport or HTTP failure, with the not-found error on an empty result
list, and with the malformed-response error when the lat or lon field of
the first result is absent or does not convert to a number; otherwise it
returns the coordinate pair of the first result. -/
theorem C7_geocode_outcomes (email : String) (hne : email ≠ "")
    (resp : UpstreamResp) (location : Json) (rest : List Json) :
    geocode none resp = .error .configError ∧
    geocode (some "") resp = .error .configError ∧
    geocode (some email) .transportError = .error .connectionError ∧
    geocode (some email) (.ok (.arr [])) = .error .notFound ∧
    (((pyIndex location "lat").bind floatOfJson = none ∨
      (pyIndex location "lon").bind floatOfJson = none) →
      geocode (some email) (.ok (.arr (location :: rest))) =
        .error .missingLatLon) ∧
    (∀ lat lon, (pyIndex location "lat").bind floatOfJson = some lat →
      (pyIndex location "lon").bind floatOfJson = some lon →
      geocode (some email) (.ok (.arr (location :: rest))) =
        .ok (lat, lon)) := by
  refine ⟨rfl, rfl, ?_, ?_, fun hor => ?_, fun lat lon hlat hlon => ?_⟩
  · simp only [geocode]
    rw [if_neg hne]
  · simp only [geocode]
    rw [if_neg hne]
  · simp only [geocode]
    rw [if_neg hne]
    rcases hor with h | h
    · simp only [h]
    · cases h1 : (pyIndex location "lat").bind floatOfJson <;>
        simp only [h1, h]
  · simp only [geocode]
    rw [if_neg hne]
    simp only [hlat, hlon]

/-- C7 witness: a populated first result yields its coordinate pair. -/
theorem C7_geocode_outcomes_witness :
    geocode (some "dev@example.com")
      (.ok (.arr [.obj [("lat", .num 33), ("lon", .num (-97))]])) =
      .ok (33, -97) ∧
    geocode none .transportError = .error .configError := by
  have h := C7_geocode_outcomes "dev@example.com" (by decide)
    .transportError (.obj [("lat", .num 33), ("lon", .num (-97))]) []
  exact ⟨h.2.2.2.2.2 33 (-97) rfl rfl, h.1⟩

/-! ### Claim C8: reverse geocoding never propagates a failure -/

/-- C8: reverse_geocode is a total function into result values, so no
failure propagates; on a transport or HTTP failure, on malformed JSON,
on a non-dict body, and on a dict body with no display_name field it
returns the formatted lat, lon fallback string; when the body is a dict
carrying a display_name it returns that upstream value. -/
theorem C8_reverse_geocode_total (lat lon : ℚ)
    (fields : List (String × Json)) (j : Json) :
    reverse_geocode lat lon .transportError = .str (fallbackStr lat lon) ∧
    reverse_geocode lat lon .badJson = .str (fallbackStr lat lon) ∧
    (dictGet fields "display_name" = none →
      reverse_geocode lat lon (.ok (.obj fields)) =
        .str (fallbackStr lat lon)) ∧
    (∀ v, dictGet fields "display_name" = some v →
      reverse_geocode lat lon (.ok (.obj fields)) = v) ∧
    ((∀ fs, j ≠ .obj fs) →
      reverse_geocode lat lon (.ok j) = .str (fallbackStr lat lon)) := by
  refine ⟨rfl, rfl, fun hn => ?_, fun v hv => ?_, fun hobj => ?_⟩
  · unfold reverse_geocode
    simp only [hn]
  · unfold reverse_geocode
    simp only [hv]
  · unfold reverse_geocode
    cases j with
    | obj fs => exact absurd rfl (hobj fs)
    | null => rfl
    | bool b => rfl
    | num q => rfl
    | str s => rfl
    | arr xs => rfl

/-- C8 witness: a present display_name is returned; a missing one and a
non-dict body fall back to the formatted string. -/
theorem C8_reverse_geocode_total_witness :
    reverse_geocode 1 2 (.ok (.obj [("display_name", .str "Dallas")])) =
      .str "Dallas" ∧
    reverse_geocode 1 2 (.ok (.arr [])) = .str (fallbackStr 1 2) ∧
    reverse_geocode 1 2 .transportError = .str (fallbackStr 1 2) := by
  have h := C8_reverse_geocode_total 1 2
    [("display_name", .str "Dallas")] (.arr [])
  exact ⟨h.2.2.2.1 (.str "Dallas") rfl,
    h.2.2.2.2 (fun fs hf => by cases hf), h.1⟩

/-! ### Claim C9: transactional mutations -/

/-- C9: on a fresh request-scoped session, each mutating operation
commits its staged changes on success (create appends the new row,
delete removes the row, update persists exactly its staged view); on a
persistence failure it re-raises SQLAlchemyError after rolling back, and
both the committed table and the session view are left at the original
table — no partial write is visible. -/
theorem C9_mutations_transactional (db : Store) (now nid loc_id : ℤ)
    (lc : LocationCreate) (u : LocationUpdate) (r : Row)
    (hr : get_location db loc_id = some r) :
    ((create_location (DbSession.fresh db) true now nid lc).1.committed =
      db ++ [{ id := nid, name := lc.name, latitude := lc.latitude,
               longitude := lc.longitude, created_at := now,
               updated_at := now }]) ∧
    ((create_location (DbSession.fresh db) false now nid lc).2 =
        .error .sqlAlchemyError ∧
      (create_location (DbSession.fresh db) false now nid lc).1.committed
        = db ∧
      (create_location (DbSession.fresh db) false now nid lc).1.pending
        = db) ∧
    ((update_location (DbSession.fresh db) false now loc_id u).2 =
        .error .sqlAlchemyError ∧
      (update_location (DbSession.fresh db) false now loc_id u).1.committed
        = db ∧
      (update_location (DbSession.fresh db) false now loc_id u).1.pending
        = db) ∧
    ((delete_location (DbSession.fresh db) false loc_id).2 =
        .error .sqlAlchemyError ∧
      (delete_location (DbSession.fresh db) false loc_id).1.committed
        = db ∧
      (delete_location (DbSession.fresh db) false loc_id).1.pending
        = db) ∧
    ((update_location (DbSession.fresh db) true now loc_id u).1.committed =
      (update_location (DbSession.fresh db) true now loc_id u).1.pending) ∧
    ((delete_location (DbSession.fresh db) true loc_id).1.committed =
      db.filter (fun x => ¬ x.id = loc_id)) := by
  have hc : get_location (DbSession.fresh db).committed loc_id = some r := hr
  refine ⟨rfl, ⟨rfl, rfl, rfl⟩, ?_, ?_, ?_, ?_⟩
  · unfold update_location
    simp only [hc]
    exact ⟨rfl, rfl, rfl⟩
  · unfold delete_location
    simp only [hc]
    exact ⟨rfl, rfl, rfl⟩
  · unfold update_location
    simp only [hc]
    rfl
  · unfold delete_location
    simp only [hc]
    rfl

/-- C9 witness: a one-row table, update and delete of the existing
row. -/
theorem C9_mutations_transactional_witness :
    (create_location (DbSession.fresh []) false 0 1
      { name := "A", latitude := 1, longitude := 2 }).2 =
      .error .sqlAlchemyError ∧
    (delete_location (DbSession.fresh
      [{ id := 5, name := "B", latitude := 3, longitude := 4,
         created_at := 0, updated_at := 0 }]) false 5).1.committed =
      [{ id := 5, name := "B", latitude := 3, longitude := 4,
         created_at := 0, updated_at := 0 }] ∧
    (delete_location (DbSession.fresh
      [{ id := 5, name := "B", latitude := 3, longitude := 4,
         created_at := 0, updated_at := 0 }]) true 5).1.committed = [] := by
  have h := C9_mutations_transactional
    [{ id := 5, name := "B", latitude := 3, longitude := 4,
       created_at := 0, updated_at := 0 }] 0 1 5
    { name := "A", latitude := 1, longitude := 2 }
    { name := none, latitude := none, longitude := none }
    { id := 5, name := "B", latitude := 3, longitude := 4,
      created_at := 0, updated_at := 0 } rfl
  exact ⟨rfl, h.2.2.2.1.2.1, h.2.2.2.2.2⟩

/-! ### Claim C10: creation timestamps and partial update -/

/-- C10: a freshly created row carries the request values with
created_at equal to updated_at, and reading it back by the returned id
yields it; updating an existing row overwrites exactly the fields
supplied in the request, keeps unsupplied fields and created_at, and
refreshes updated_at to the time of the mutation (the request must
carry at least one field for an update statement to be flushed). -/
theorem C10_create_then_update (db : Store) (t0 t1 nid loc_id : ℤ)
    (lc : LocationCreate) (u : LocationUpdate) (r : Row)
    (hfresh : get_location db nid = none)
    (hr : get_location db loc_id = some r) (hset : u.isSet = true) :
    (∀ row, (create_location (DbSession.fresh db) true t0 nid lc).2 =
        .ok row →
      row.created_at = row.updated_at ∧ row.name = lc.name ∧
        row.latitude = lc.latitude ∧ row.longitude = lc.longitude ∧
        get_location
          (create_location (DbSession.fresh db) true t0 nid lc).1.committed
          nid = some row) ∧
    (update_location (DbSession.fresh db) true t1 loc_id u).2 =
      .ok (some { id := r.id,
                  name := u.name.getD r.name,
                  latitude := u.latitude.getD r.latitude,
                  longitude := u.longitude.getD r.longitude,
                  created_at := r.created_at,
                  updated_at := t1 }) := by
  have hc : get_location (DbSession.fresh db).committed loc_id = some r := hr
  constructor
  · intro row hrow
    have hrow2 : ({ id := nid, name := lc.name,
                    latitude := lc.latitude,
                    longitude := lc.longitude, created_at := t0,
                    updated_at := t0 } : Row) = row := by
      injection hrow
    subst hrow2
    refine ⟨rfl, rfl, rfl, rfl, ?_⟩
    show get_location (db ++ [_]) nid = _
    unfold get_location at hfresh ⊢
    rw [List.find?_append, hfresh]
    simp
  · unfold update_location
    simp only [hc]
    unfold applyUpdate
    simp only [hset]
    rfl

/-- C10 witness: create a row at time 0, then update only its name at
time 7: the coordinates survive, created_at survives, updated_at
advances. -/
theorem C10_create_then_update_witness :
    (update_location (DbSession.fresh
      [{ id := 2, name := "Old", latitude := 1, longitude := 2,
         created_at := 0, updated_at := 0 }]) true 7 2
      { name := some "New", latitude := none, longitude := none }).2 =
      .ok (some { id := 2, name := "New", latitude := 1, longitude := 2,
                  created_at := 0, updated_at := 7 }) := by
  exact (C10_create_then_update
    [{ id := 2, name := "Old", latitude := 1, longitude := 2,
       created_at := 0, updated_at := 0 }] 0 7 9 2
    { name := "C", latitude := 5, longitude := 6 }
    { name := some "New", latitude := none, longitude := none }
    { id := 2, name := "Old", latitude := 1, longitude := 2,
      created_at := 0, updated_at := 0 } rfl rfl rfl).2

end WeatherApp
